import Mathlib

/-!
Verification development for the MirrorMind emotion-journal core: a shallow
embedding of the streak tracker and history query of emotion_journal.py and of
the pattern analyzer and tip selector of adaptive_health_tips.py, together with
theorems settling the specification claims about them.

Modelling conventions:
- SQL tables become Lean lists in insertion order (created_at ascending);
  ORDER BY created_at DESC is List.reverse, ORDER BY timestamp DESC is a
  stable insertion sort by timestamp.
- Python datetime.date becomes an integer day number; (d1 - d2).days is
  integer subtraction.
- pandas DataFrames of emotion rows become lists of Sample records; the
  groupby('date') of _count_consecutive_days becomes the list of distinct
  sampled dates paired with the emotions logged on each date.
- random.choice over a fixed tip pool is abstracted to the identity of the
  pool: the tip selector returns the (emotion key, tier key) pair addressing
  the pool in the emotion_tips dictionary it draws from.
-/

/-- A row of the emotions table: timestamp, calendar date, emotion label.
Columns not used by any analysed code path (confidence, notes, session id)
are omitted. -/
structure Sample where
  timestamp : Nat
  date : Int
  emotion : String
deriving DecidableEq, Repr

/-- A row of the mood_streaks table (emotion_journal.py, init_database). -/
structure StreakRecord where
  streak_type : String
  start_date : Int
  end_date : Int
  current_count : Nat
  best_count : Nat
deriving DecidableEq, Repr

/-- Polarity classification of update_mood_streaks (emotion_journal.py
lines 242-251): happy/surprised positive, sad/angry negative, else neutral. -/
def streakTypeOf (emotion : String) : String :=
  if emotion ∈ (["happy", "surprised"] : List String) then "positive"
  else if emotion ∈ (["sad", "angry"] : List String) then "negative"
  else "neutral"

/-- The SELECT ... WHERE streak_type = ? ORDER BY created_at DESC LIMIT 1 of
update_mood_streaks: the last (most recently inserted) record of the given
polarity, together with its position in the table. -/
def lastMatch : List StreakRecord → String → Option (Nat × StreakRecord)
  | [], _ => none
  | r :: rs, st =>
    match lastMatch rs st with
    | some (i, x) => some (i + 1, x)
    | none => if r.streak_type = st then some (0, r) else none

/-- EmotionJournal.update_mood_streaks (emotion_journal.py lines 236-295).
The mood_streaks table is a list in insertion order; UPDATE ... WHERE id = ?
is List.set at the found position, INSERT appends. -/
def update_mood_streaks (table : List StreakRecord) (emotion : String) (date : Int) :
    List StreakRecord :=
  match lastMatch table (streakTypeOf emotion) with
  | some (i, r) =>
      if date - r.end_date ≤ 2 then
        table.set i { r with end_date := date, current_count := r.current_count + 1,
                             best_count := max r.best_count (r.current_count + 1) }
      else
        table ++ [{ streak_type := streakTypeOf emotion, start_date := date, end_date := date,
                    current_count := 1, best_count := max 1 r.best_count }]
  | none =>
      table ++ [{ streak_type := streakTypeOf emotion, start_date := date, end_date := date,
                  current_count := 1, best_count := 1 }]

/-- The mood_streaks table produced by logging a sequence of
(emotion, date) samples into an initially empty database. -/
def run_updates (samples : List (String × Int)) : List StreakRecord :=
  samples.foldl (fun t se => update_mood_streaks t se.1 se.2) []

/-- Python dict assignment streak_data[k] = v: overwrite the binding if the
key is present, otherwise append it. -/
def dictInsert (d : List (String × StreakRecord)) (k : String) (v : StreakRecord) :
    List (String × StreakRecord) :=
  if d.any (fun kv => kv.1 == k) then
    d.map (fun kv => if kv.1 = k then (k, v) else kv)
  else d ++ [(k, v)]

/-- EmotionJournal.get_current_streaks (emotion_journal.py lines 297-326):
rows with current_count > 0 are fetched ORDER BY created_at DESC (reverse of
insertion order) and folded into a dict keyed by streak_type, later rows
overwriting earlier ones. -/
def get_current_streaks (table : List StreakRecord) : List (String × StreakRecord) :=
  ((table.filter (fun r => decide (0 < r.current_count))).reverse).foldl
    (fun d r => dictInsert d r.streak_type r) []

/-- Lookup in the dict returned by get_current_streaks. -/
def dictGet (d : List (String × StreakRecord)) (k : String) : Option StreakRecord :=
  (d.find? (fun kv => kv.1 == k)).map (fun kv => kv.2)

/-- EmotionJournal.log_emotion (emotion_journal.py lines 70-91): INSERT of one
emotions row (the streak update it also triggers is modelled separately by
update_mood_streaks). -/
def log_emotion (db : List Sample) (ts : Nat) (date : Int) (emotion : String) : List Sample :=
  db ++ [{ timestamp := ts, date := date, emotion := emotion }]

/-- Logging a batch of (timestamp, emotion) entries on one date. -/
def log_many (db : List Sample) (date : Int) (entries : List (Nat × String)) : List Sample :=
  entries.foldl (fun d x => log_emotion d x.1 date x.2) db

/-- Newest-first order on samples, the ORDER BY timestamp DESC of
get_emotion_history. -/
def tsGe (a b : Sample) : Prop := b.timestamp ≤ a.timestamp

instance : DecidableRel tsGe := fun a b => Nat.decLe b.timestamp a.timestamp

instance : IsTotal Sample tsGe :=
  ⟨fun a b => show b.timestamp ≤ a.timestamp ∨ a.timestamp ≤ b.timestamp from
    Nat.le_total b.timestamp a.timestamp⟩

instance : IsTrans Sample tsGe :=
  ⟨fun _ _ _ hab hbc => Nat.le_trans hbc hab⟩

/-- EmotionJournal.get_emotion_history (emotion_journal.py lines 93-119):
SELECT rows WHERE date BETWEEN today - days AND today, ORDER BY timestamp
DESC (rendered as a stable insertion sort under tsGe). -/
def get_emotion_history (db : List Sample) (today : Int) (days : Nat) : List Sample :=
  List.insertionSort tsGe
    (db.filter (fun s => decide (today - (days : Int) ≤ s.date ∧ s.date ≤ today)))

-- Streak invariant machinery for claim C1.

theorem update_preserves_le (t : List StreakRecord) (e : String) (d : Int)
    (h : ∀ r ∈ t, r.current_count ≤ r.best_count) :
    ∀ r ∈ update_mood_streaks t e d, r.current_count ≤ r.best_count := by
  intro r hr
  unfold update_mood_streaks at hr
  split at hr
  next i r0 heq =>
    split at hr
    next hgap =>
      rcases List.mem_or_eq_of_mem_set hr with h1 | h1
      · exact h r h1
      · subst h1
        exact le_max_right _ _
    next hgap =>
      rcases List.mem_append.mp hr with h1 | h1
      · exact h r h1
      · rcases List.mem_singleton.mp h1 with rfl
        exact le_max_left 1 _
  next heq =>
    rcases List.mem_append.mp hr with h1 | h1
    · exact h r h1
    · rcases List.mem_singleton.mp h1 with rfl
      exact Nat.le_refl 1

theorem foldl_updates_le :
    ∀ (samples : List (String × Int)) (t : List StreakRecord),
      (∀ r ∈ t, r.current_count ≤ r.best_count) →
      ∀ r ∈ samples.foldl (fun t se => update_mood_streaks t se.1 se.2) t,
        r.current_count ≤ r.best_count
  | [], _, h => h
  | se :: rest, t, h =>
      foldl_updates_le rest _ (update_preserves_le t se.1 se.2 h)

/-- Claim C1: after any sequence of streak updates performed by
update_mood_streaks on an initially empty mood_streaks table, every streak
record satisfies current_count ≤ best_count (continuation sets best to
max(best, current + 1); a fresh streak has current = 1 and
best = max(1, previous best); the first streak has current = best = 1). -/
theorem streak_current_le_best (samples : List (String × Int)) (r : StreakRecord)
    (h : r ∈ run_updates samples) : r.current_count ≤ r.best_count :=
  foldl_updates_le samples [] (fun _ hr => absurd hr (List.not_mem_nil _)) r h

/-- Witness for claim C1 at a concrete run: two happy samples on days 0 and 1
produce the record with current 2, best 2, and the theorem applies to it. -/
theorem streak_current_le_best_witness :
    (⟨"positive", 0, 1, 2, 2⟩ : StreakRecord).current_count ≤
      (⟨"positive", 0, 1, 2, 2⟩ : StreakRecord).best_count :=
  streak_current_le_best [("happy", 0), ("happy", 1)] ⟨"positive", 0, 1, 2, 2⟩ (by decide)

/-- Claim C2: when a new sample's polarity matches an existing streak record
(the most recent one of that polarity), a calendar gap of at most 2 days from
that record's end date increments current_count and raises best_count to
max(best, current + 1); a gap above 2 days appends a new streak of length 1
whose best_count is max(1, previous best). -/
theorem update_streak_gap_rule (t : List StreakRecord) (e : String) (d : Int)
    (i : Nat) (r : StreakRecord)
    (h : lastMatch t (streakTypeOf e) = some (i, r)) :
    update_mood_streaks t e d =
      if d - r.end_date ≤ 2 then
        t.set i { r with end_date := d, current_count := r.current_count + 1,
                         best_count := max r.best_count (r.current_count + 1) }
      else
        t ++ [{ streak_type := streakTypeOf e, start_date := d, end_date := d,
                current_count := 1, best_count := max 1 r.best_count }] := by
  unfold update_mood_streaks
  rw [h]

/-- Witness for claim C2: continuing the one-record table of a happy sample on
day 0 by a happy sample on day 1 (gap 1 ≤ 2) increments the streak to 2/2. -/
theorem update_streak_gap_rule_witness :
    update_mood_streaks [⟨"positive", 0, 0, 1, 1⟩] "happy" 1 =
      [⟨"positive", 0, 1, 2, 2⟩] := by
  have h := update_streak_gap_rule [⟨"positive", 0, 0, 1, 1⟩] "happy" 1 0
    ⟨"positive", 0, 0, 1, 1⟩ (by decide)
  simpa using h

/-- Claim C7 (code bug demonstration): after happy samples on days 0, 1 and 10
the table holds a finished positive streak (current 2) and the active positive
streak started on day 10 (current 1, the most recently created record with
current_count > 0), but get_current_streaks returns the day 0-1 record: its
newest-first fold lets the oldest qualifying row win, not the latest one the
read contract promises. -/
theorem get_current_streaks_returns_oldest :
    run_updates [("happy", 0), ("happy", 1), ("happy", 10)] =
        [⟨"positive", 0, 1, 2, 2⟩, ⟨"positive", 10, 10, 1, 2⟩] ∧
    lastMatch (run_updates [("happy", 0), ("happy", 1), ("happy", 10)]) "positive" =
        some (1, ⟨"positive", 10, 10, 1, 2⟩) ∧
    0 < (⟨"positive", 10, 10, 1, 2⟩ : StreakRecord).current_count ∧
    dictGet (get_current_streaks (run_updates [("happy", 0), ("happy", 1), ("happy", 10)]))
        "positive" = some ⟨"positive", 0, 1, 2, 2⟩ := by
  decide

-- History query machinery for claim C8.

theorem orderedInsert_of_forall_not (a : Sample) :
    ∀ l : List Sample, (∀ b ∈ l, ¬ tsGe a b) →
      List.orderedInsert tsGe a l = l ++ [a]
  | [], _ => rfl
  | b :: l, h => by
      have hnb : ¬ tsGe a b := h b (List.mem_cons_self b l)
      simp only [List.orderedInsert, if_neg hnb,
        orderedInsert_of_forall_not a l (fun x hx => h x (List.mem_cons_of_mem b hx)),
        List.cons_append]

theorem insertionSort_eq_reverse :
    ∀ l : List Sample, List.Pairwise (fun a b => a.timestamp < b.timestamp) l →
      List.insertionSort tsGe l = l.reverse
  | [], _ => rfl
  | a :: l, h => by
      have h1 := (List.pairwise_cons.mp h).1
      have h2 := (List.pairwise_cons.mp h).2
      rw [List.insertionSort, insertionSort_eq_reverse l h2,
        orderedInsert_of_forall_not a l.reverse
          (fun b hb => Nat.not_le.mpr (h1 b (List.mem_reverse.mp hb))),
        List.reverse_cons]

theorem log_many_eq (today : Int) :
    ∀ (entries : List (Nat × String)) (db : List Sample),
      log_many db today entries =
        db ++ entries.map (fun x => { timestamp := x.1, date := today, emotion := x.2 })
  | [], db => by simp [log_many]
  | x :: rest, db => by
      show log_many (log_emotion db x.1 today x.2) today rest = _
      rw [log_many_eq today rest]
      simp [log_emotion]

theorem filter_window_of_all_today (today : Int) (w : Nat) (l : List Sample)
    (h : ∀ s ∈ l, s.date = today) :
    l.filter (fun s => decide (today - (w : Int) ≤ s.date ∧ s.date ≤ today)) = l := by
  apply List.filter_eq_self.mpr
  intro a ha
  have hd := h a ha
  simp only [hd, decide_eq_true_eq, le_refl, and_true]
  omega

/-- Claim C8: appending N samples all dated today (with strictly increasing
timestamps, as successive datetime.now calls produce) and then querying any
window that contains today returns exactly those N samples newest-first; in
general, get_emotion_history returns exactly the stored samples whose date
lies in the interval from today - windowDays to today, ordered newest-first
by timestamp. -/
theorem query_round_trip (today : Int) (w : Nat) (entries : List (Nat × String))
    (hmono : List.Pairwise (fun a b => a.1 < b.1) entries) :
    get_emotion_history (log_many [] today entries) today w
        = (log_many [] today entries).reverse ∧
    (log_many [] today entries).length = entries.length ∧
    (∀ (db : List Sample) (s : Sample),
        s ∈ get_emotion_history db today w ↔
          s ∈ db ∧ today - (w : Int) ≤ s.date ∧ s.date ≤ today) ∧
    (∀ db : List Sample, List.Sorted tsGe (get_emotion_history db today w)) := by
  refine ⟨?_, ?_, ?_, ?_⟩
  · rw [log_many_eq, List.nil_append, get_emotion_history,
      filter_window_of_all_today today w _
        (by intro s hs; rcases List.mem_map.mp hs with ⟨x, _, rfl⟩; rfl)]
    refine insertionSort_eq_reverse _ ?_
    rw [List.pairwise_map]
    exact hmono
  · rw [log_many_eq, List.nil_append, List.length_map]
  · intro db s
    rw [get_emotion_history]
    rw [(List.perm_insertionSort tsGe _).mem_iff, List.mem_filter]
    simp only [decide_eq_true_eq]
  · intro db
    exact List.sorted_insertionSort tsGe _

/-- Witness for claim C8 at a concrete run: two samples logged on day 0 with
timestamps 0 and 1 are returned newest-first by a 7-day query. -/
theorem query_round_trip_witness :
    get_emotion_history (log_many [] 0 [(0, "happy"), (1, "sad")]) 0 7
      = (log_many [] 0 [(0, "happy"), (1, "sad")]).reverse :=
  (query_round_trip 0 7 [(0, "happy"), (1, "sad")] (by decide)).1

-- Pattern analyzer (adaptive_health_tips.py).

/-- The patterns dictionary built by _analyze_emotion_patterns. -/
structure Patterns where
  current_emotion : String
  pattern_type : String
  frequency : String
  trend : String
  concern_level : String
  consecutive_days : Nat
  dominant_emotion : String
deriving DecidableEq, Repr

/-- Initial patterns dictionary (adaptive_health_tips.py lines 183-191). -/
def defaultPatterns (current : String) : Patterns :=
  { current_emotion := current, pattern_type := "stable", frequency := "normal",
    trend := "stable", concern_level := "none", consecutive_days := 0,
    dominant_emotion := "neutral" }

/-- Number of rows of the frame whose emotion equals e
(recent_counts.get(e, 0)). -/
def countEmotion (df : List Sample) (e : String) : Nat :=
  (df.filter (fun s => decide (s.emotion = e))).length

/-- Sum of per-emotion counts over a list of emotion labels
(sum of counts.get(e, 0) for e in the list). -/
def sumCounts (df : List Sample) (es : List String) : Nat :=
  (es.map (countEmotion df)).sum

def concerning_emotions : List String := ["sad", "angry", "tired"]

def positive_emotions : List String := ["happy", "surprised"]

def negative_emotions : List String := ["sad", "angry", "tired"]

/-- Keep the first occurrence of each label, dropping later duplicates. -/
def dedupFirst : List String → List String
  | [] => []
  | e :: rest => e :: (dedupFirst rest).filter (fun x => decide (x ≠ e))

/-- The distinct emotion labels of the frame in order of first appearance,
the index of the pandas value_counts series. -/
def distinctEmotions (df : List Sample) : List String :=
  dedupFirst (df.map (fun s => s.emotion))

/-- recent_counts.index[0]: the most frequent emotion of the frame, earliest
first appearance winning ties (the arbitrary-but-stable order of
value_counts); neutral for an empty frame. -/
def value_counts_top (df : List Sample) : String :=
  (distinctEmotions df).foldl
    (fun best e => if countEmotion df best < countEmotion df e then e else best) "neutral"

/-- Descending order on calendar dates, the sort_index(ascending=False) of
_count_consecutive_days. -/
def dateGe (a b : Int) : Prop := b ≤ a

instance : DecidableRel dateGe := fun a b => Int.decLe b a

/-- The distinct dates of the frame (order immaterial, they are sorted next). -/
def dedupDates : List Int → List Int
  | [] => []
  | d :: rest => if d ∈ rest then dedupDates rest else d :: dedupDates rest

/-- The distinct sampled dates of the frame, newest first: the index of
df.groupby('date') after sort_index(ascending=False). -/
def sampleDatesDesc (df : List Sample) : List Int :=
  List.insertionSort dateGe (dedupDates (df.map (fun s => s.date)))

/-- The emotions logged on calendar date d, in row order: the groupby('date')
group of d mapped to a list. -/
def emotionsOnDay (df : List Sample) (d : Int) : List String :=
  (df.filter (fun s => decide (s.date = d))).map (fun s => s.emotion)

/-- Whether any emotion logged on date d belongs to the target list
(the any(emotion in emotions ...) test of _count_consecutive_days). -/
def dayAnyIn (df : List Sample) (d : Int) (emotions : List String) : Bool :=
  (emotionsOnDay df d).any (fun e => decide (e ∈ emotions))

/-- The loop of _count_consecutive_days: walk the dates newest-first, adding
one per date containing a target emotion and stopping at the first date
containing none. -/
def countLoop (df : List Sample) (emotions : List String) : List Int → Nat
  | [] => 0
  | d :: rest => if dayAnyIn df d emotions then countLoop df emotions rest + 1 else 0

/-- AdaptiveHealthTips._count_consecutive_days (adaptive_health_tips.py
lines 256-271). -/
def count_consecutive_days (df : List Sample) (emotions : List String) : Nat :=
  if df = [] then 0 else countLoop df emotions (sampleDatesDesc df)

/-- Dominant-emotion step (lines 200-202): set dominant when the value-counts
series is non-empty. -/
def withDominant (p : Patterns) (recent : List Sample) : Patterns :=
  if distinctEmotions recent = [] then p
  else { p with dominant_emotion := value_counts_top recent }

/-- Concern step (lines 204-217): for a concerning current emotion record the
consecutive-day count and escalate concern_level / pattern_type at the 3- and
2-day thresholds. -/
def withConcern (p : Patterns) (recent : List Sample) (current : String) : Patterns :=
  if current ∈ concerning_emotions then
    if 3 ≤ count_consecutive_days recent concerning_emotions then
      { p with consecutive_days := count_consecutive_days recent concerning_emotions,
               concern_level := "high", pattern_type := "persistent_negative" }
    else if 2 ≤ count_consecutive_days recent concerning_emotions then
      { p with consecutive_days := count_consecutive_days recent concerning_emotions,
               concern_level := "moderate", pattern_type := "frequent_negative" }
    else { p with consecutive_days := count_consecutive_days recent concerning_emotions }
  else p

/-- Positive-streak step (lines 219-223): three or more consecutive happy
days flag a positive streak. -/
def withPositiveStreak (p : Patterns) (recent : List Sample) (current : String) : Patterns :=
  if current = "happy" then
    if 3 ≤ count_consecutive_days recent ["happy"] then
      { p with pattern_type := "positive_streak" }
    else p
  else p

/-- Frequency step (lines 225-234): bucket the ratio of the current emotion
among recent samples; the float comparisons ratio > 0.6 and ratio > 0.3 are
rendered as the exact rational comparisons 5c > 3t and 10c > 3t. -/
def withFrequency (p : Patterns) (recent : List Sample) (current : String) : Patterns :=
  if 0 < recent.length then
    if 3 * recent.length < 5 * countEmotion recent current then
      { p with frequency := "high" }
    else if 3 * recent.length < 10 * countEmotion recent current then
      { p with frequency := "moderate" }
    else { p with frequency := "low" }
  else p

/-- Trend comparison of the trend step (lines 241-252); the final else
returns the stable value the trend field already holds at that point. -/
def trendOf (recent older : List Sample) : String :=
  if sumCounts older positive_emotions < sumCounts recent positive_emotions ∧
     sumCounts recent negative_emotions < sumCounts older negative_emotions then "improving"
  else if sumCounts recent positive_emotions < sumCounts older positive_emotions ∧
          sumCounts older negative_emotions < sumCounts recent negative_emotions then "declining"
  else "stable"

/-- Trend step guard (lines 236-239): only when the longer frame is non-empty
and strictly larger than the recent frame; the older period drops the first
len(recent) rows of the longer frame. -/
def withTrend (p : Patterns) (recent longer : List Sample) : Patterns :=
  if longer ≠ [] ∧ recent.length < longer.length then
    { p with trend := trendOf recent (longer.drop recent.length) }
  else p

/-- AdaptiveHealthTips._analyze_emotion_patterns (adaptive_health_tips.py
lines 181-254), as the sequence of updates the source applies to the
patterns dictionary. -/
def analyze_emotion_patterns (recent longer : List Sample) (current : String) : Patterns :=
  if recent = [] then defaultPatterns current
  else
    withTrend
      (withFrequency
        (withPositiveStreak
          (withConcern (withDominant (defaultPatterns current) recent) recent current)
          recent current)
        recent current)
      recent longer

-- Tip selector (adaptive_health_tips.py lines 273-324).

/-- The tier keys present in the emotion_tips dictionary
(adaptive_health_tips.py lines 13-129) for each emotion;
emotion_tips.get(emotion, empty dict) for unknown labels. -/
def tip_keys (emotion : String) : List String :=
  if emotion = "happy" then ["maintain", "build_on"]
  else if emotion = "sad" then ["immediate", "persistent", "severe"]
  else if emotion = "angry" then ["immediate", "frequent", "chronic"]
  else if emotion = "tired" then ["immediate", "frequent", "chronic"]
  else if emotion = "neutral" then ["stable", "encourage"]
  else if emotion = "surprised" then ["process"]
  else []

/-- AdaptiveHealthTips._select_tip_based_on_pattern (lines 273-313), returning
the (emotion key, tier key) address of the pool the source draws its
uniform-random tip from; ("generic", "fallback") stands for the literal
fallback tip of the final else. -/
def select_tip_based_on_pattern (emotion : String) (p : Patterns) : String × String :=
  if p.concern_level = "high" ∧ emotion ∈ (["sad", "angry", "tired"] : List String) then
    if emotion = "sad" then (emotion, "severe")
    else if emotion = "angry" then (emotion, "chronic")
    else (emotion, "chronic")
  else if p.concern_level = "moderate" ∧ emotion ∈ (["sad", "angry", "tired"] : List String) then
    if emotion = "sad" then (emotion, "persistent")
    else if emotion = "angry" then (emotion, "frequent")
    else (emotion, "frequent")
  else if p.pattern_type = "positive_streak" then ("happy", "build_on")
  else if "immediate" ∈ tip_keys emotion then (emotion, "immediate")
  else if "stable" ∈ tip_keys emotion then (emotion, "stable")
  else ("generic", "fallback")

/-- AdaptiveHealthTips._get_tip_category (lines 315-324). -/
def get_tip_category (p : Patterns) : String :=
  if p.concern_level = "high" then "urgent"
  else if p.concern_level = "moderate" then "attention"
  else if p.pattern_type = "positive_streak" then "celebrate"
  else "normal"

/-- Modelled from the spec words of section 4.4 for the comparison in claim
C6: the priority cascade concern high to severest tier, concern moderate to
intermediate tier, positive streak to celebratory tier, else the default
tier, stated without any guard on the current emotion. -/
def specTipCascade (emotion : String) (p : Patterns) : String × String :=
  if p.concern_level = "high" then
    if emotion = "sad" then (emotion, "severe") else (emotion, "chronic")
  else if p.concern_level = "moderate" then
    if emotion = "sad" then (emotion, "persistent") else (emotion, "frequent")
  else if p.pattern_type = "positive_streak" then ("happy", "build_on")
  else if "immediate" ∈ tip_keys emotion then (emotion, "immediate")
  else if "stable" ∈ tip_keys emotion then (emotion, "stable")
  else ("generic", "fallback")

-- Field bookkeeping for the analyzer stages.

theorem withDominant_concern (p : Patterns) (r : List Sample) :
    (withDominant p r).concern_level = p.concern_level := by
  unfold withDominant; split_ifs <;> rfl

theorem withDominant_consecutive (p : Patterns) (r : List Sample) :
    (withDominant p r).consecutive_days = p.consecutive_days := by
  unfold withDominant; split_ifs <;> rfl

theorem withDominant_trend (p : Patterns) (r : List Sample) :
    (withDominant p r).trend = p.trend := by
  unfold withDominant; split_ifs <;> rfl

theorem withConcern_concern (p : Patterns) (r : List Sample) (e : String) :
    (withConcern p r e).concern_level =
      if e ∈ concerning_emotions then
        (if 3 ≤ count_consecutive_days r concerning_emotions then "high"
         else if 2 ≤ count_consecutive_days r concerning_emotions then "moderate"
         else p.concern_level)
      else p.concern_level := by
  unfold withConcern; split_ifs <;> rfl

theorem withConcern_consecutive (p : Patterns) (r : List Sample) (e : String) :
    (withConcern p r e).consecutive_days =
      if e ∈ concerning_emotions then count_consecutive_days r concerning_emotions
      else p.consecutive_days := by
  unfold withConcern; split_ifs <;> rfl

theorem withConcern_trend (p : Patterns) (r : List Sample) (e : String) :
    (withConcern p r e).trend = p.trend := by
  unfold withConcern; split_ifs <;> rfl

theorem withPositiveStreak_concern (p : Patterns) (r : List Sample) (e : String) :
    (withPositiveStreak p r e).concern_level = p.concern_level := by
  unfold withPositiveStreak; split_ifs <;> rfl

theorem withPositiveStreak_consecutive (p : Patterns) (r : List Sample) (e : String) :
    (withPositiveStreak p r e).consecutive_days = p.consecutive_days := by
  unfold withPositiveStreak; split_ifs <;> rfl

theorem withPositiveStreak_trend (p : Patterns) (r : List Sample) (e : String) :
    (withPositiveStreak p r e).trend = p.trend := by
  unfold withPositiveStreak; split_ifs <;> rfl

theorem withFrequency_concern (p : Patterns) (r : List Sample) (e : String) :
    (withFrequency p r e).concern_level = p.concern_level := by
  unfold withFrequency; split_ifs <;> rfl

theorem withFrequency_consecutive (p : Patterns) (r : List Sample) (e : String) :
    (withFrequency p r e).consecutive_days = p.consecutive_days := by
  unfold withFrequency; split_ifs <;> rfl

theorem withFrequency_trend (p : Patterns) (r : List Sample) (e : String) :
    (withFrequency p r e).trend = p.trend := by
  unfold withFrequency; split_ifs <;> rfl

theorem withTrend_concern (p : Patterns) (r l : List Sample) :
    (withTrend p r l).concern_level = p.concern_level := by
  unfold withTrend; split_ifs <;> rfl

theorem withTrend_consecutive (p : Patterns) (r l : List Sample) :
    (withTrend p r l).consecutive_days = p.consecutive_days := by
  unfold withTrend; split_ifs <;> rfl

theorem withTrend_trend (p : Patterns) (r l : List Sample) :
    (withTrend p r l).trend =
      if l ≠ [] ∧ r.length < l.length then trendOf r (l.drop r.length) else p.trend := by
  unfold withTrend; split_ifs <;> rfl

theorem analyze_concern (r l : List Sample) (e : String) :
    (analyze_emotion_patterns r l e).concern_level =
      if r = [] then "none"
      else if e ∈ concerning_emotions then
        (if 3 ≤ count_consecutive_days r concerning_emotions then "high"
         else if 2 ≤ count_consecutive_days r concerning_emotions then "moderate"
         else "none")
      else "none" := by
  by_cases hr : r = []
  · rw [if_pos hr]
    simp only [analyze_emotion_patterns, if_pos hr]
    rfl
  · rw [if_neg hr]
    simp only [analyze_emotion_patterns, if_neg hr]
    rw [withTrend_concern, withFrequency_concern, withPositiveStreak_concern,
      withConcern_concern, withDominant_concern]
    rfl

theorem analyze_consecutive (r l : List Sample) (e : String) :
    (analyze_emotion_patterns r l e).consecutive_days =
      if r = [] then 0
      else if e ∈ concerning_emotions then count_consecutive_days r concerning_emotions
      else 0 := by
  by_cases hr : r = []
  · rw [if_pos hr]
    simp only [analyze_emotion_patterns, if_pos hr]
    rfl
  · rw [if_neg hr]
    simp only [analyze_emotion_patterns, if_neg hr]
    rw [withTrend_consecutive, withFrequency_consecutive, withPositiveStreak_consecutive,
      withConcern_consecutive, withDominant_consecutive]
    rfl

theorem sumCounts_nil (es : List String) : sumCounts [] es = 0 := by
  induction es with
  | nil => rfl
  | cons e rest ih =>
      simp only [sumCounts, List.map_cons, List.sum_cons] at ih ⊢
      simpa [countEmotion] using ih

theorem trendOf_nil_left (older : List Sample) : trendOf [] older = "stable" := by
  unfold trendOf
  simp only [sumCounts_nil]
  rw [if_neg, if_neg]
  · rintro ⟨-, h2⟩
    exact absurd h2 (Nat.not_lt_zero _)
  · rintro ⟨h1, -⟩
    exact absurd h1 (Nat.not_lt_zero _)

theorem analyze_trend (r l : List Sample) (e : String) :
    (analyze_emotion_patterns r l e).trend =
      if l ≠ [] ∧ r.length < l.length then trendOf r (l.drop r.length) else "stable" := by
  by_cases hr : r = []
  · subst hr
    simp only [analyze_emotion_patterns, if_pos rfl]
    by_cases hg : l ≠ [] ∧ ([] : List Sample).length < l.length
    · rw [if_pos hg, trendOf_nil_left]
      rfl
    · rw [if_neg hg]
      rfl
  · simp only [analyze_emotion_patterns, if_neg hr]
    rw [withTrend_trend, withFrequency_trend, withPositiveStreak_trend,
      withConcern_trend, withDominant_trend]
    rfl

-- Concrete frames used in the scenario parts of the claims.

/-- One sad sample on each of five consecutive days, newest first. -/
def fiveSadDays : List Sample :=
  [⟨4, 4, "sad"⟩, ⟨3, 3, "sad"⟩, ⟨2, 2, "sad"⟩, ⟨1, 1, "sad"⟩, ⟨0, 0, "sad"⟩]

/-- Sad samples on day 0 and day 2 with nothing recorded on day 1. -/
def mondayWednesdaySad : List Sample := [⟨0, 0, "sad"⟩, ⟨1, 2, "sad"⟩]

/-- Sad on days 0 and 2, but day 1 was sampled and contains no sad emotion. -/
def sadHappySad : List Sample := [⟨0, 0, "sad"⟩, ⟨1, 1, "happy"⟩, ⟨2, 2, "sad"⟩]

/-- Recent frame with 3 positive and 0 negative samples. -/
def improvingRecent : List Sample := [⟨6, 6, "happy"⟩, ⟨5, 5, "happy"⟩, ⟨4, 4, "happy"⟩]

/-- Older frame with 1 positive and 2 negative samples. -/
def improvingOlder : List Sample := [⟨2, 2, "happy"⟩, ⟨1, 1, "sad"⟩, ⟨0, 0, "angry"⟩]

/-- Claim C5: an empty recent window raises no error (the analyzer is a total
function) and yields the all-default neutral snapshot: dominant neutral,
concern none, trend stable, consecutive days 0, frequency normal. -/
theorem empty_window_defaults (longer : List Sample) (e : String) :
    analyze_emotion_patterns [] longer e =
      { current_emotion := e, pattern_type := "stable", frequency := "normal",
        trend := "stable", concern_level := "none", consecutive_days := 0,
        dominant_emotion := "neutral" } := rfl

/-- Claim C3: for a non-empty recent window and a current emotion in
{sad, angry, tired}, concern_level is high when the consecutive concerning
trailing-day count is at least 3, moderate when it is at least 2, none
otherwise, and consecutive_days records that count; in particular sad samples
on 5 consecutive days give count 5, concern high, and the severe tip tier. -/
theorem concern_level_thresholds (recent longer : List Sample) (e : String)
    (hr : recent ≠ []) (he : e ∈ concerning_emotions) :
    ((analyze_emotion_patterns recent longer e).concern_level =
       if 3 ≤ count_consecutive_days recent concerning_emotions then "high"
       else if 2 ≤ count_consecutive_days recent concerning_emotions then "moderate"
       else "none") ∧
    (analyze_emotion_patterns recent longer e).consecutive_days =
       count_consecutive_days recent concerning_emotions ∧
    count_consecutive_days fiveSadDays concerning_emotions = 5 ∧
    (analyze_emotion_patterns fiveSadDays [] "sad").concern_level = "high" ∧
    select_tip_based_on_pattern "sad" (analyze_emotion_patterns fiveSadDays [] "sad") =
      ("sad", "severe") := by
  refine ⟨?_, ?_, by decide, by decide, by decide⟩
  · rw [analyze_concern, if_neg hr, if_pos he]
  · rw [analyze_consecutive, if_neg hr, if_pos he]

/-- Witness for claim C3 at the five-sad-days frame. -/
theorem concern_level_thresholds_witness :
    (analyze_emotion_patterns fiveSadDays [] "sad").concern_level =
      (if 3 ≤ count_consecutive_days fiveSadDays concerning_emotions then "high"
       else if 2 ≤ count_consecutive_days fiveSadDays concerning_emotions then "moderate"
       else "none") :=
  (concern_level_thresholds fiveSadDays [] "sad" (by decide) (by decide)).1

/-- Claim C9: the consecutive-day count scans exactly the distinct sampled
dates newest-first, so it equals the length of the longest prefix of those
dates whose days each contain a target emotion; an unsampled calendar date is
skipped rather than breaking the run (sad on day 0 and day 2 with day 1
unsampled counts 2), while a sampled day with none of the target emotions
breaks it (sad, happy-only, sad on days 0, 1, 2 counts 1). -/
theorem consecutive_days_skip_unsampled :
    (∀ (df : List Sample) (es : List String),
       count_consecutive_days df es =
         ((sampleDatesDesc df).takeWhile (fun d => dayAnyIn df d es)).length) ∧
    sampleDatesDesc mondayWednesdaySad = [2, 0] ∧
    count_consecutive_days mondayWednesdaySad ["sad"] = 2 ∧
    count_consecutive_days sadHappySad ["sad"] = 1 := by
  have hloop : ∀ (df : List Sample) (es : List String) (dates : List Int),
      countLoop df es dates = (dates.takeWhile (fun d => dayAnyIn df d es)).length := by
    intro df es dates
    induction dates with
    | nil => rfl
    | cons d rest ih =>
        cases h : dayAnyIn df d es <;>
          simp [countLoop, List.takeWhile_cons, h, ih]
  refine ⟨?_, by decide, by decide, by decide⟩
  intro df es
  unfold count_consecutive_days
  split_ifs with h
  · subst h
    rfl
  · exact hloop df es _

/-- Claim C4: the analyzer classifies the trend as improving exactly when the
recent positive count strictly exceeds the older positive count and the
recent negative count is strictly below the older negative count (with the
trend comparison actually performed, i.e. the longer frame non-empty and
strictly larger), declining in the symmetric opposite case, and stable in all
remaining cases including partial shifts; the spec scenario with recent
positives 3 over 1 and recent negatives 0 under 2 is improving. -/
theorem trend_classification (r l : List Sample) (e : String) :
    ((analyze_emotion_patterns r l e).trend = "improving" ↔
        (l ≠ [] ∧ r.length < l.length ∧
         sumCounts (l.drop r.length) positive_emotions < sumCounts r positive_emotions ∧
         sumCounts r negative_emotions < sumCounts (l.drop r.length) negative_emotions)) ∧
    ((analyze_emotion_patterns r l e).trend = "declining" ↔
        (l ≠ [] ∧ r.length < l.length ∧
         sumCounts r positive_emotions < sumCounts (l.drop r.length) positive_emotions ∧
         sumCounts (l.drop r.length) negative_emotions < sumCounts r negative_emotions)) ∧
    ((analyze_emotion_patterns r l e).trend = "stable" ↔
        (¬ (l ≠ [] ∧ r.length < l.length ∧
            sumCounts (l.drop r.length) positive_emotions < sumCounts r positive_emotions ∧
            sumCounts r negative_emotions < sumCounts (l.drop r.length) negative_emotions) ∧
         ¬ (l ≠ [] ∧ r.length < l.length ∧
            sumCounts r positive_emotions < sumCounts (l.drop r.length) positive_emotions ∧
            sumCounts (l.drop r.length) negative_emotions < sumCounts r negative_emotions))) ∧
    trendOf improvingRecent improvingOlder = "improving" := by
  have ht := analyze_trend r l e
  by_cases hG : l ≠ [] ∧ r.length < l.length
  · rw [if_pos hG] at ht
    unfold trendOf at ht
    by_cases hA : sumCounts (l.drop r.length) positive_emotions < sumCounts r positive_emotions ∧
        sumCounts r negative_emotions < sumCounts (l.drop r.length) negative_emotions
    · rw [if_pos hA] at ht
      refine ⟨⟨fun _ => ⟨hG.1, hG.2, hA.1, hA.2⟩, fun _ => ht⟩,
              ⟨fun h => absurd (ht.symm.trans h) (by decide),
               fun h => absurd hA.1 (Nat.lt_asymm h.2.2.1)⟩,
              ⟨fun h => absurd (ht.symm.trans h) (by decide),
               fun h => absurd ⟨hG.1, hG.2, hA.1, hA.2⟩ h.1⟩,
              by decide⟩
    · rw [if_neg hA] at ht
      by_cases hB : sumCounts r positive_emotions < sumCounts (l.drop r.length) positive_emotions ∧
          sumCounts (l.drop r.length) negative_emotions < sumCounts r negative_emotions
      · rw [if_pos hB] at ht
        refine ⟨⟨fun h => absurd (ht.symm.trans h) (by decide),
                 fun h => absurd ⟨h.2.2.1, h.2.2.2⟩ hA⟩,
                ⟨fun _ => ⟨hG.1, hG.2, hB.1, hB.2⟩, fun _ => ht⟩,
                ⟨fun h => absurd (ht.symm.trans h) (by decide),
                 fun h => absurd ⟨hG.1, hG.2, hB.1, hB.2⟩ h.2⟩,
                by decide⟩
      · rw [if_neg hB] at ht
        refine ⟨⟨fun h => absurd (ht.symm.trans h) (by decide),
                 fun h => absurd ⟨h.2.2.1, h.2.2.2⟩ hA⟩,
                ⟨fun h => absurd (ht.symm.trans h) (by decide),
                 fun h => absurd ⟨h.2.2.1, h.2.2.2⟩ hB⟩,
                ⟨fun _ => ⟨fun hc => hA ⟨hc.2.2.1, hc.2.2.2⟩, fun hc => hB ⟨hc.2.2.1, hc.2.2.2⟩⟩,
                 fun _ => ht⟩,
                by decide⟩
  · rw [if_neg hG] at ht
    refine ⟨⟨fun h => absurd (ht.symm.trans h) (by decide),
             fun h => absurd ⟨h.1, h.2.1⟩ hG⟩,
            ⟨fun h => absurd (ht.symm.trans h) (by decide),
             fun h => absurd ⟨h.1, h.2.1⟩ hG⟩,
            ⟨fun _ => ⟨fun hc => hG ⟨hc.1, hc.2.1⟩, fun hc => hG ⟨hc.1, hc.2.1⟩⟩, fun _ => ht⟩,
            by decide⟩

/-- Claim C10: the trend comparison is attempted only when the longer frame
is non-empty and has strictly more rows than the recent frame; otherwise
trend stays stable regardless of the emotion counts, and when attempted the
older period is the longer frame with its first len(recent) rows dropped. -/
theorem trend_needs_strictly_longer_frame (r l : List Sample) (e : String) :
    ((l = [] ∨ l.length ≤ r.length) → (analyze_emotion_patterns r l e).trend = "stable") ∧
    (analyze_emotion_patterns r l e).trend =
      (if l ≠ [] ∧ r.length < l.length then trendOf r (l.drop r.length) else "stable") := by
  refine ⟨?_, analyze_trend r l e⟩
  intro h
  rw [analyze_trend r l e, if_neg]
  rintro ⟨h1, h2⟩
  rcases h with h | h
  · exact h1 h
  · omega

/-- Witness for claim C10: with an empty longer frame the trend is stable. -/
theorem trend_needs_strictly_longer_frame_witness :
    (analyze_emotion_patterns [⟨0, 0, "sad"⟩] [] "sad").trend = "stable" :=
  (trend_needs_strictly_longer_frame [⟨0, 0, "sad"⟩] [] "sad").1 (Or.inl rfl)

-- Helper facts for claim C6.

theorem analyze_concern_requires_concerning (r l : List Sample) (e : String)
    (h : (analyze_emotion_patterns r l e).concern_level = "high" ∨
         (analyze_emotion_patterns r l e).concern_level = "moderate") :
    e ∈ (["sad", "angry", "tired"] : List String) := by
  have hc := analyze_concern r l e
  by_cases hr : r = []
  · rw [if_pos hr] at hc
    rcases h with h | h <;> rw [h] at hc <;> exact absurd hc (by decide)
  · rw [if_neg hr] at hc
    by_cases he : e ∈ concerning_emotions
    · exact he
    · rw [if_neg he] at hc
      rcases h with h | h <;> rw [h] at hc <;> exact absurd hc (by decide)

theorem select_eq_cascade (e : String) (p : Patterns)
    (hmem : (p.concern_level = "high" ∨ p.concern_level = "moderate") →
            e ∈ (["sad", "angry", "tired"] : List String)) :
    select_tip_based_on_pattern e p = specTipCascade e p := by
  unfold select_tip_based_on_pattern specTipCascade
  by_cases h1 : p.concern_level = "high"
  · rw [if_pos ⟨h1, hmem (Or.inl h1)⟩, if_pos h1]
    by_cases hs : e = "sad"
    · rw [if_pos hs, if_pos hs]
    · rw [if_neg hs, if_neg hs]
      by_cases ha : e = "angry"
      · rw [if_pos ha]
      · rw [if_neg ha]
  · by_cases h2 : p.concern_level = "moderate"
    · rw [if_neg (fun hc => h1 hc.1), if_neg h1, if_pos ⟨h2, hmem (Or.inr h2)⟩, if_pos h2]
      by_cases hs : e = "sad"
      · rw [if_pos hs, if_pos hs]
      · rw [if_neg hs, if_neg hs]
        by_cases ha : e = "angry"
        · rw [if_pos ha]
        · rw [if_neg ha]
    · rw [if_neg (fun hc => h1 hc.1), if_neg h1, if_neg (fun hc => h2 hc.1), if_neg h2]

theorem get_tip_category_cases (p : Patterns) :
    get_tip_category p ∈ (["urgent", "attention", "celebrate", "normal"] : List String) ∧
    (get_tip_category p = "urgent" ↔ p.concern_level = "high") ∧
    (get_tip_category p = "attention" ↔ p.concern_level = "moderate") ∧
    (get_tip_category p = "celebrate" ↔
       p.pattern_type = "positive_streak" ∧ p.concern_level ≠ "high" ∧
         p.concern_level ≠ "moderate") ∧
    (get_tip_category p = "normal" ↔
       p.pattern_type ≠ "positive_streak" ∧ p.concern_level ≠ "high" ∧
         p.concern_level ≠ "moderate") := by
  unfold get_tip_category
  by_cases h1 : p.concern_level = "high"
  · rw [if_pos h1]
    exact ⟨by decide,
      ⟨fun _ => h1, fun _ => rfl⟩,
      ⟨fun h => absurd h (by decide), fun h => absurd (h1.symm.trans h) (by decide)⟩,
      ⟨fun h => absurd h (by decide), fun hc => absurd h1 hc.2.1⟩,
      ⟨fun h => absurd h (by decide), fun hc => absurd h1 hc.2.1⟩⟩
  · rw [if_neg h1]
    by_cases h2 : p.concern_level = "moderate"
    · rw [if_pos h2]
      exact ⟨by decide,
        ⟨fun h => absurd h (by decide), fun h => absurd h h1⟩,
        ⟨fun _ => h2, fun _ => rfl⟩,
        ⟨fun h => absurd h (by decide), fun hc => absurd h2 hc.2.2⟩,
        ⟨fun h => absurd h (by decide), fun hc => absurd h2 hc.2.2⟩⟩
    · rw [if_neg h2]
      by_cases h3 : p.pattern_type = "positive_streak"
      · rw [if_pos h3]
        exact ⟨by decide,
          ⟨fun h => absurd h (by decide), fun h => absurd h h1⟩,
          ⟨fun h => absurd h (by decide), fun h => absurd h h2⟩,
          ⟨fun _ => ⟨h3, h1, h2⟩, fun _ => rfl⟩,
          ⟨fun h => absurd h (by decide), fun hc => absurd h3 hc.1⟩⟩
      · rw [if_neg h3]
        exact ⟨by decide,
          ⟨fun h => absurd h (by decide), fun h => absurd h h1⟩,
          ⟨fun h => absurd h (by decide), fun h => absurd h h2⟩,
          ⟨fun h => absurd h (by decide), fun hc => absurd hc.1 h3⟩,
          ⟨fun _ => ⟨h3, h1, h2⟩, fun _ => rfl⟩⟩

/-- Claim C6: on every snapshot the analyzer produces for the current emotion,
the tip selector realises the priority cascade concern high to the severest
tier of that emotion (severe for sad, chronic for angry and tired), concern
moderate to the intermediate tier (persistent or frequent), positive streak to
the celebratory build_on tier, else the default immediate tier (or the stable
tier or generic fallback when the emotion has none); and the tip category of
any snapshot is one of urgent, attention, celebrate, normal, with urgent
exactly on concern high, attention exactly on concern moderate, celebrate
exactly on a positive streak not overridden by concern, and normal in all
remaining cases. -/
theorem tip_selection_priority (r l : List Sample) (e : String) :
    select_tip_based_on_pattern e (analyze_emotion_patterns r l e) =
      specTipCascade e (analyze_emotion_patterns r l e) ∧
    (∀ p : Patterns,
      get_tip_category p ∈ (["urgent", "attention", "celebrate", "normal"] : List String) ∧
      (get_tip_category p = "urgent" ↔ p.concern_level = "high") ∧
      (get_tip_category p = "attention" ↔ p.concern_level = "moderate") ∧
      (get_tip_category p = "celebrate" ↔
         p.pattern_type = "positive_streak" ∧ p.concern_level ≠ "high" ∧
           p.concern_level ≠ "moderate") ∧
      (get_tip_category p = "normal" ↔
         p.pattern_type ≠ "positive_streak" ∧ p.concern_level ≠ "high" ∧
           p.concern_level ≠ "moderate")) :=
  ⟨select_eq_cascade e _ (analyze_concern_requires_concerning r l e),
   fun p => get_tip_category_cases p⟩
